import Mathlib

set_option maxRecDepth 100000

/-!
Shallow embedding of the redirect-time decision pipeline of `server.js`
(URL-shortening redirector with referrer-gated access control and click
analytics).  JavaScript strings are modelled as `List Char`; JS truthiness
of an optional header value (`undefined` and `""` are falsy) is modelled
explicitly.  The datastore and the geolocation provider are external
collaborators: their responses enter the model as parameters, and the
datastore writes the code attempts are collected as an `Effect` list.
-/

/-- Model of a JavaScript string: a list of characters. -/
abbrev Str := List Char

/-- Conversion from a Lean string literal to the model type. -/
def str (s : String) : Str := s.data

/-- JS truthiness of an optional string value: `undefined` and `""` are falsy. -/
def truthy (v : Option Str) : Bool :=
  match v with
  | none => false
  | some s => !(s == [])

/-- Model of the JS idiom `v || dflt` on an optional string. -/
def jsOr (v : Option Str) (dflt : Str) : Str :=
  match v with
  | none => dflt
  | some s => if s == [] then dflt else s

/-- Model of `String.prototype.includes`: substring occurrence anywhere. -/
def jsIncludes (hay needle : Str) : Bool :=
  match hay with
  | [] => needle == []
  | _ :: t => needle.isPrefixOf hay || jsIncludes t needle

/-- Whitespace predicate used by the model of `String.prototype.trim`. -/
def isJsSpace (c : Char) : Bool :=
  c == ' ' || c == '\t' || c == '\n' || c == '\r'

/-- Model of `String.prototype.trim`. -/
def jsTrim (s : Str) : Str :=
  ((s.dropWhile isJsSpace).reverse.dropWhile isJsSpace).reverse

/-- Model of `str.replace(/^https?:\/\//, '')` (server.js line 526): strip one
leading `http://` or `https://`. -/
def stripProtocol (s : Str) : Str :=
  if (str "https://").isPrefixOf s then s.drop 8
  else if (str "http://").isPrefixOf s then s.drop 7
  else s

/-- Model of `.replace(/^www\./, '')` (server.js line 526): strip one leading
`www.` label. -/
def stripWww (s : Str) : Str :=
  if (str "www.").isPrefixOf s then s.drop 4 else s

/-- Model of `.replace(/\/$/, '')` (server.js line 526): strip one trailing
slash. -/
def stripTrailingSlash (s : Str) : Str :=
  if s.getLast? == some '/' then s.dropLast else s

/-- Model of `.toLowerCase()` (ASCII case folding). -/
def toLowerStr (s : Str) : Str := s.map Char.toLower

/-- The `normalize` arrow function of server.js line 526: strip protocol, strip
`www.`, strip a single trailing slash, then lower-case. -/
def ReferrerPolicy.normalize (s : Str) : Str :=
  toLowerStr (stripTrailingSlash (stripWww (stripProtocol s)))

/-- The referrer-policy decision of server.js lines 528-534: equality, or
prefix `partner + "/"`, or substring containment, on the normalized strings. -/
def ReferrerPolicy.isAllowed (partnerDomain referrer : Str) : Bool :=
  let normalizedPartner := normalize partnerDomain
  let normalizedRef := normalize referrer
  normalizedRef == normalizedPartner ||
  (normalizedPartner ++ str "/").isPrefixOf normalizedRef ||
  jsIncludes normalizedRef normalizedPartner

/-- Incoming request data consumed by the pipeline: the five headers and the
two socket-derived address fields (`req.ip`, `req.connection.remoteAddress`).
A `none` header is an absent header. -/
structure Request where
  xForwardedFor : Option Str
  xRealIP : Option Str
  cfConnectingIP : Option Str
  userAgent : Option Str
  referer : Option Str
  referrerHdr : Option Str
  reqIp : Option Str
  remoteAddress : Option Str

/-- Model of `getRealIP` (server.js lines 89-105): forwarded-for first entry
(split on comma, trimmed), then real-ip, then cf-connecting-ip, then
`req.ip || req.connection.remoteAddress || 'Unknown'`. -/
def getRealIP (req : Request) : Str :=
  if truthy req.xForwardedFor then
    (((req.xForwardedFor.getD []).splitOn ',').map jsTrim).headD []
  else if truthy req.xRealIP then req.xRealIP.getD []
  else if truthy req.cfConnectingIP then req.cfConnectingIP.getD []
  else if truthy req.reqIp then req.reqIp.getD []
  else if truthy req.remoteAddress then req.remoteAddress.getD []
  else str "Unknown"

/-- Resolved location triple returned by the geo resolver. -/
structure GeoTriple where
  country : Str
  city : Str
  region : Str
deriving DecidableEq

/-- The all-`Local` triple. -/
def localTriple : GeoTriple := ⟨str "Local", str "Local", str "Local"⟩

/-- The all-`Unknown` fallback triple. -/
def unknownTriple : GeoTriple := ⟨str "Unknown", str "Unknown", str "Unknown"⟩

/-- Parsed JSON body of a provider response; each field may be absent. -/
structure GeoData where
  status : Option Str
  country : Option Str
  city : Option Str
  regionName : Option Str
deriving DecidableEq

/-- Outcome of the outbound geolocation fetch: a transport error, abort on the
5-second timeout, or a JSON body (possibly `null`). -/
inductive FetchOutcome
  | transportError
  | timeoutAbort
  | ok (data : Option GeoData)
deriving DecidableEq

/-- The local/private short-circuit condition of `getLocationFromIP`
(server.js lines 111-114), including JS truthiness of `!ip`. -/
def isLocalIP (ip : Str) : Bool :=
  ip == [] || ip == str "127.0.0.1" || ip == str "::1" || ip == str "Unknown" ||
  (str "192.168").isPrefixOf ip || (str "10.").isPrefixOf ip ||
  (str "172.16").isPrefixOf ip || (str "172.31").isPrefixOf ip ||
  jsIncludes ip (str "::ffff:127.0.0.1") || jsIncludes ip (str "::1")

/-- Model of `getLocationFromIP` (server.js lines 108-153).  The network is a
parameter; every failure path falls through to the `Unknown` triple, exactly
as the function body (whose `try` block covers everything before the final
`return`) never rejects. -/
def getLocationFromIP (ip : Str) (net : FetchOutcome) : GeoTriple :=
  if isLocalIP ip then localTriple
  else
    match net with
    | .transportError => unknownTriple
    | .timeoutAbort => unknownTriple
    | .ok none => unknownTriple
    | .ok (some data) =>
      if data.status == some (str "success") then
        { country := jsOr data.country (str "Unknown")
          city := jsOr data.city (str "Unknown")
          region := jsOr data.regionName (str "Unknown") }
      else unknownTriple

/-- Classification result of `parseUserAgent`. -/
structure UAInfo where
  device : Str
  browser : Str
  os : Str
deriving DecidableEq

/-- The device branch of `parseUserAgent` (server.js lines 160-162), on the
already lower-cased string. -/
def uaDevice (ua : Str) : Str :=
  if jsIncludes ua (str "mobile") then str "Mobile"
  else if jsIncludes ua (str "tablet") then str "Tablet"
  else str "Desktop"

/-- The browser branch of `parseUserAgent` (server.js lines 165-170), on the
already lower-cased string. -/
def uaBrowser (ua : Str) : Str :=
  if jsIncludes ua (str "chrome") && !jsIncludes ua (str "edg") then str "Chrome"
  else if jsIncludes ua (str "safari") && !jsIncludes ua (str "chrome") then str "Safari"
  else if jsIncludes ua (str "firefox") then str "Firefox"
  else if jsIncludes ua (str "edg") then str "Edge"
  else if jsIncludes ua (str "opera") || jsIncludes ua (str "opr") then str "Opera"
  else str "Unknown"

/-- The OS branch of `parseUserAgent` (server.js lines 173-178), on the
already lower-cased string. -/
def uaOS (ua : Str) : Str :=
  if jsIncludes ua (str "windows") then str "Windows"
  else if jsIncludes ua (str "mac") then str "macOS"
  else if jsIncludes ua (str "linux") then str "Linux"
  else if jsIncludes ua (str "android") then str "Android"
  else if jsIncludes ua (str "iphone") || jsIncludes ua (str "ipad") then str "iOS"
  else str "Unknown"

/-- Model of `parseUserAgent` (server.js lines 156-181): lower-case once, then
fixed-priority substring matching for device, browser and OS. -/
def parseUserAgent (userAgent : Str) : UAInfo :=
  let ua := toLowerStr userAgent
  ⟨uaDevice ua, uaBrowser ua, uaOS ua⟩

/-- A row returned by the lookup join of server.js lines 424-429: the target
URL, the partner domain (`NULL` when no partner is attached, and possibly the
empty string), and the optional expiry timestamp (an instant, modelled as an
integer). -/
structure UrlRow where
  url : Str
  partnerDomain : Option Str
  expiresAt : Option Int
deriving DecidableEq

/-- Terminal response bodies of `GET /:code`.  The 404, 410 and 403 pages are
constant HTML; only the interstitial page embeds the target URL. -/
inductive Response
  | notFoundPage
  | expiredPage
  | bypassPage
  | interstitial (targetUrl : Str)
deriving DecidableEq

/-- A datastore write attempted by the pipeline. -/
inductive Effect
  | insertBypass (code referrer ipAddress userAgent : Str)
  | insertClick (code ipAddress : Str) (loc : GeoTriple)
      (userAgent device browser os referrer : Str)
  | incrementClicks (code : Str)
deriving DecidableEq

/-- Recognizer for click-insert effects. -/
def Effect.isClickInsert : Effect → Bool
  | .insertClick .. => true
  | _ => false

/-- Recognizer for counter-increment effects. -/
def Effect.isIncrement : Effect → Bool
  | .incrementClicks _ => true
  | _ => false

/-- Recognizer for bypass-insert effects. -/
def Effect.isBypassInsert : Effect → Bool
  | .insertBypass .. => true
  | _ => false

/-- The background enrichment task scheduled on the allowed path
(server.js lines 628-649), captured with the data the closure closes over. -/
structure BgTask where
  code : Str
  ipAddress : Str
  userAgent : Str
  referrer : Str
  device : Str
  browser : Str
  os : Str
deriving DecidableEq

/-- Result of the synchronous part of `GET /:code`: the HTTP status, the body,
the datastore writes attempted synchronously, and the scheduled background
task (if any). -/
structure SyncResult where
  status : Nat
  response : Response
  effects : List Effect
  background : Option BgTask
deriving DecidableEq

/-- The expiry test of server.js line 478: `expiresAt && new Date(expiresAt) <
new Date()`.  A non-`NULL` timestamp is a `Date` object, which is always
truthy. -/
def isExpired (expiresAt : Option Int) (now : Int) : Bool :=
  match expiresAt with
  | none => false
  | some t => decide (t < now)

/-- Model of the synchronous path of the `GET /:code` handler (server.js
lines 419-771).  `lookup` is the datastore's answer for the code;
`bypassInsertOk` records whether the synchronous bypass-log insert would
succeed (its failure is caught and logged at line 544, so it must not affect
the result).  The allowed branch schedules the background task and sends the
interstitial page embedding the target URL, with no synchronous write. -/
def redirectHandler (code : Str) (lookup : Option UrlRow) (now : Int)
    (req : Request) (bypassInsertOk : Bool) : SyncResult :=
  match lookup with
  | none => ⟨404, .notFoundPage, [], none⟩
  | some row =>
    if isExpired row.expiresAt now then ⟨410, .expiredPage, [], none⟩
    else
      let ip := getRealIP req
      let userAgent := jsOr req.userAgent (str "Unknown")
      let referrer := jsOr req.referer (jsOr req.referrerHdr (str "Direct"))
      let allowedResult : SyncResult :=
        let info := parseUserAgent userAgent
        ⟨200, .interstitial row.url, [],
          some ⟨code, ip, userAgent, referrer, info.device, info.browser, info.os⟩⟩
      if truthy row.partnerDomain then
        if ReferrerPolicy.isAllowed (row.partnerDomain.getD []) referrer then
          allowedResult
        else
          ⟨403, .bypassPage,
            [.insertBypass code referrer ip userAgent], none⟩
      else allowedResult

/-- Model of the fulfilled branch of the background continuation (server.js
lines 628-640): `getLocationFromIP` settles with a location triple, the click
row is inserted, and the counter increment is issued only if that insert
succeeded (a failed insert is caught at line 638, skipping the increment). -/
def backgroundEffects (t : BgTask) (net : FetchOutcome) (clickInsertOk : Bool) :
    List Effect :=
  let loc := getLocationFromIP t.ipAddress net
  Effect.insertClick t.code t.ipAddress loc t.userAgent t.device t.browser
      t.os t.referrer ::
    (if clickInsertOk then [Effect.incrementClicks t.code] else [])

/-- Model of the rejected branch of the background continuation (server.js
lines 641-649): insert the click with the `Unknown` triple and no counter
increment.  Unreachable in practice: `getLocationFromIP` catches every failure
internally and always resolves, so its promise never rejects. -/
def backgroundEffectsOnReject (t : BgTask) : List Effect :=
  [Effect.insertClick t.code t.ipAddress unknownTriple t.userAgent t.device
      t.browser t.os t.referrer]

/-- The success mapping exactly as claim C6 words it: `Unknown` is substituted
only for an absent provider field (an empty-string field is kept). -/
def claimedSuccessMap (d : GeoData) : GeoTriple :=
  ⟨d.country.getD (str "Unknown"), d.city.getD (str "Unknown"),
    d.regionName.getD (str "Unknown")⟩

/-- A request with no headers and no socket-derived addresses, used to
instantiate universally quantified theorems at a concrete input. -/
def emptyRequest : Request :=
  ⟨none, none, none, none, none, none, none, none⟩

/-! Helper lemmas bridging the boolean string operations of the embedding to
the relational vocabulary of Mathlib. -/

/-- The model of `String.prototype.includes` decides substring occurrence. -/
theorem jsIncludes_iff (hay needle : Str) :
    jsIncludes hay needle = true ↔ needle <:+: hay := by
  induction hay with
  | nil =>
    simp [jsIncludes, List.infix_nil]
  | cons c t ih =>
    rw [jsIncludes, Bool.or_eq_true, List.infix_cons_iff, ih,
      List.isPrefixOf_iff_prefix]

/-- The three-clause referrer match collapses to the containment clause. -/
theorem isAllowed_eq_contains (d r : Str) :
    ReferrerPolicy.isAllowed d r =
      jsIncludes (ReferrerPolicy.normalize r) (ReferrerPolicy.normalize d) := by
  rw [Bool.eq_iff_iff]
  constructor
  · intro h
    rw [ReferrerPolicy.isAllowed, Bool.or_eq_true, Bool.or_eq_true] at h
    rcases h with (h | h) | h
    · rw [beq_iff_eq] at h
      rw [jsIncludes_iff, h]
    · rw [List.isPrefixOf_iff_prefix] at h
      rw [jsIncludes_iff]
      exact List.IsPrefix.isInfix ((List.prefix_append _ _).trans h)
    · exact h
  · intro h
    rw [ReferrerPolicy.isAllowed, Bool.or_eq_true, Bool.or_eq_true]
    exact Or.inr h

/-- Normalization maps the default referrer `"Direct"` to `"direct"`. -/
theorem normalize_Direct : ReferrerPolicy.normalize (str "Direct") = str "direct" := by
  decide

/-- C1: for every partner domain and referrer, the policy allows exactly when,
after normalizing both strings (strip a leading protocol, strip a leading
`www.`, strip a single trailing slash, lower-case), the normalized referrer
equals the normalized domain, or starts with it followed by `/`, or contains
it as a substring anywhere; in particular domain `example.com` with referrer
`https://www.example.com/page` is allowed. -/
theorem claim_C1_match_rule :
    (∀ d r : Str,
      ReferrerPolicy.isAllowed d r = true ↔
        (ReferrerPolicy.normalize r = ReferrerPolicy.normalize d ∨
         ReferrerPolicy.normalize d ++ str "/" <+: ReferrerPolicy.normalize r ∨
         ReferrerPolicy.normalize d <:+: ReferrerPolicy.normalize r)) ∧
    ReferrerPolicy.isAllowed (str "example.com")
      (str "https://www.example.com/page") = true := by
  constructor
  · intro d r
    rw [ReferrerPolicy.isAllowed, Bool.or_eq_true, Bool.or_eq_true,
      beq_iff_eq, List.isPrefixOf_iff_prefix, jsIncludes_iff, or_assoc]
  · decide

/-- C9: the three-clause match rule is equivalent to the single substring
test — the policy allows if and only if the normalized referrer contains the
normalized partner domain as a substring. -/
theorem claim_C9_contains_subsumes :
    ∀ d r : Str,
      ReferrerPolicy.isAllowed d r = true ↔
        ReferrerPolicy.normalize d <:+: ReferrerPolicy.normalize r := by
  intro d r
  rw [isAllowed_eq_contains, jsIncludes_iff]

/-- The `includes` model agrees with deciding the substring relation. -/
theorem jsIncludes_eq_decide (hay needle : Str) :
    jsIncludes hay needle = decide (needle <:+: hay) := by
  cases hj : jsIncludes hay needle
  · rw [eq_comm, decide_eq_false_iff_not]
    intro hin
    rw [(jsIncludes_iff hay needle).mpr hin] at hj
    cases hj
  · rw [eq_comm, decide_eq_true_eq]
    exact (jsIncludes_iff hay needle).mp hj

/-- Characterization of the browser branch as a fixed-priority chain of
substring conditions. -/
theorem uaBrowser_eq_chain (l : Str) :
    uaBrowser l =
      (if (str "chrome") <:+: l ∧ ¬ (str "edg") <:+: l then str "Chrome"
       else if (str "safari") <:+: l ∧ ¬ (str "chrome") <:+: l then str "Safari"
       else if (str "firefox") <:+: l then str "Firefox"
       else if (str "edg") <:+: l then str "Edge"
       else if (str "opera") <:+: l ∨ (str "opr") <:+: l then str "Opera"
       else str "Unknown") := by
  by_cases hc : (str "chrome") <:+: l <;>
  by_cases he : (str "edg") <:+: l <;>
  by_cases hs : (str "safari") <:+: l <;>
  by_cases hf : (str "firefox") <:+: l <;>
  by_cases ho : (str "opera") <:+: l <;>
  by_cases hp : (str "opr") <:+: l <;>
  simp [uaBrowser, jsIncludes_eq_decide, hc, he, hs, hf, ho, hp]

/-- Characterization of the OS branch as a fixed-priority chain of substring
conditions. -/
theorem uaOS_eq_chain (l : Str) :
    uaOS l =
      (if (str "windows") <:+: l then str "Windows"
       else if (str "mac") <:+: l then str "macOS"
       else if (str "linux") <:+: l then str "Linux"
       else if (str "android") <:+: l then str "Android"
       else if (str "iphone") <:+: l ∨ (str "ipad") <:+: l then str "iOS"
       else str "Unknown") := by
  by_cases hw : (str "windows") <:+: l <;>
  by_cases hm : (str "mac") <:+: l <;>
  by_cases hl : (str "linux") <:+: l <;>
  by_cases ha : (str "android") <:+: l <;>
  by_cases hi : (str "iphone") <:+: l <;>
  by_cases hp : (str "ipad") <:+: l <;>
  simp [uaOS, jsIncludes_eq_decide, hw, hm, hl, ha, hi, hp]

/-- C7: the classifier decides the browser in fixed priority order — Chrome
(contains `chrome`, not `edg`), else Safari (contains `safari`, not `chrome`),
else Firefox, else Edge, else Opera (contains `opera` or `opr`), else
`Unknown`; in particular a string containing both `chrome` and `safari` and
not `edg` yields Chrome, not Safari. -/
theorem claim_C7_browser_priority :
    (∀ ua : Str,
      (parseUserAgent ua).browser =
        (if (str "chrome") <:+: toLowerStr ua ∧ ¬ (str "edg") <:+: toLowerStr ua
          then str "Chrome"
         else if (str "safari") <:+: toLowerStr ua ∧ ¬ (str "chrome") <:+: toLowerStr ua
          then str "Safari"
         else if (str "firefox") <:+: toLowerStr ua then str "Firefox"
         else if (str "edg") <:+: toLowerStr ua then str "Edge"
         else if (str "opera") <:+: toLowerStr ua ∨ (str "opr") <:+: toLowerStr ua
          then str "Opera"
         else str "Unknown")) ∧
    (∀ ua : Str, (str "chrome") <:+: toLowerStr ua → (str "safari") <:+: toLowerStr ua →
      ¬ (str "edg") <:+: toLowerStr ua → (parseUserAgent ua).browser = str "Chrome") := by
  constructor
  · intro ua
    exact uaBrowser_eq_chain (toLowerStr ua)
  · intro ua hc hs he
    rw [show (parseUserAgent ua).browser = uaBrowser (toLowerStr ua) from rfl,
      uaBrowser_eq_chain]
    simp [hc, he]

/-- Witness for C7 at the spec's example: a Chrome desktop user-agent string
containing both `Chrome` and `Safari` tokens is classified as Chrome. -/
theorem claim_C7_witness :
    (parseUserAgent (str "Mozilla/5.0 (Windows NT 10.0; Win64; x64) AppleWebKit/537.36 (KHTML, like Gecko) Chrome/91.0.4472.124 Safari/537.36")).browser = str "Chrome" :=
  claim_C7_browser_priority.2
    (str "Mozilla/5.0 (Windows NT 10.0; Win64; x64) AppleWebKit/537.36 (KHTML, like Gecko) Chrome/91.0.4472.124 Safari/537.36")
    (by decide) (by decide) (by decide)

/-- C10: a user-agent containing `mac` and not `windows` is classified as
macOS; the classifier answers iOS exactly for strings containing `iphone` or
`ipad` but none of `windows`, `mac`, `linux`, `android`; consequently a
string containing `like Mac OS X` (as standard iPhone and iPad user-agents
do) and not `windows` is classified macOS, never iOS. -/
theorem claim_C10_os_mac_shadows_ios :
    (∀ ua : Str, (str "mac") <:+: toLowerStr ua → ¬ (str "windows") <:+: toLowerStr ua →
      (parseUserAgent ua).os = str "macOS") ∧
    (∀ ua : Str, (parseUserAgent ua).os = str "iOS" ↔
      ((str "iphone") <:+: toLowerStr ua ∨ (str "ipad") <:+: toLowerStr ua) ∧
      ¬ (str "windows") <:+: toLowerStr ua ∧ ¬ (str "mac") <:+: toLowerStr ua ∧
      ¬ (str "linux") <:+: toLowerStr ua ∧ ¬ (str "android") <:+: toLowerStr ua) ∧
    (∀ ua : Str, (str "like mac os x") <:+: toLowerStr ua →
      ¬ (str "windows") <:+: toLowerStr ua →
      (parseUserAgent ua).os = str "macOS" ∧ (parseUserAgent ua).os ≠ str "iOS") := by
  refine ⟨?_, ?_, ?_⟩
  · intro ua hm hw
    rw [show (parseUserAgent ua).os = uaOS (toLowerStr ua) from rfl, uaOS_eq_chain,
      if_neg hw, if_pos hm]
  · intro ua
    rw [show (parseUserAgent ua).os = uaOS (toLowerStr ua) from rfl, uaOS_eq_chain]
    split_ifs with h1 h2 h3 h4 h5
    · exact iff_of_false (by decide) (fun hr => hr.2.1 h1)
    · exact iff_of_false (by decide) (fun hr => hr.2.2.1 h2)
    · exact iff_of_false (by decide) (fun hr => hr.2.2.2.1 h3)
    · exact iff_of_false (by decide) (fun hr => hr.2.2.2.2 h4)
    · exact iff_of_true rfl ⟨h5, h1, h2, h3, h4⟩
    · exact iff_of_false (by decide) (fun hr => h5 hr.1)
  · intro ua hlike hw
    have hm : (str "mac") <:+: toLowerStr ua :=
      List.IsInfix.trans (by decide) hlike
    rw [show (parseUserAgent ua).os = uaOS (toLowerStr ua) from rfl, uaOS_eq_chain,
      if_neg hw, if_pos hm]
    exact ⟨rfl, by decide⟩

/-- Witness for C10 at a standard iPhone user-agent: it contains
`like Mac OS X`, so it is classified macOS and not iOS. -/
theorem claim_C10_witness :
    (parseUserAgent (str "Mozilla/5.0 (iPhone; CPU iPhone OS 14_6 like Mac OS X) AppleWebKit/605.1.15 (KHTML, like Gecko) Version/14.1.1 Mobile/15E148 Safari/604.1")).os = str "macOS" ∧
    (parseUserAgent (str "Mozilla/5.0 (iPhone; CPU iPhone OS 14_6 like Mac OS X) AppleWebKit/605.1.15 (KHTML, like Gecko) Version/14.1.1 Mobile/15E148 Safari/604.1")).os ≠ str "iOS" :=
  claim_C10_os_mac_shadows_ios.2.2
    (str "Mozilla/5.0 (iPhone; CPU iPhone OS 14_6 like Mac OS X) AppleWebKit/605.1.15 (KHTML, like Gecko) Version/14.1.1 Mobile/15E148 Safari/604.1")
    (by decide) (by decide)

/-- C3 evidence: `172.17.0.1` lies inside the RFC1918 range 172.16.0.0 –
172.31.255.255, yet the local-IP short-circuit of `getLocationFromIP` (which
only tests the string prefixes `172.16` and `172.31`) does not recognize it,
so the resolver proceeds to the outbound fetch and, e.g. on a transport
error, returns the `Unknown` triple instead of the `Local` triple. -/
theorem claim_C3_code_behavior :
    isLocalIP (str "172.17.0.1") = false ∧
    getLocationFromIP (str "172.17.0.1") FetchOutcome.transportError = unknownTriple ∧
    unknownTriple ≠ localTriple := by
  decide

/-- Counterexample to C6 as stated: a successful provider response whose
`country` field is present but empty.  The code's `data.country || 'Unknown'`
is falsy on the empty string, so the resolver returns `Unknown` where the
claim requires the provider's (empty) field. -/
theorem claim_C6_counterexample :
    getLocationFromIP (str "8.8.8.8")
        (FetchOutcome.ok (some ⟨some (str "success"), some [],
          some (str "TestCity"), some (str "TestRegion")⟩)) ≠
      claimedSuccessMap ⟨some (str "success"), some [],
        some (str "TestCity"), some (str "TestRegion")⟩ := by
  decide

/-- The JS short-circuit `v || dflt` phrased through `Option.getD`: the
default is taken exactly when the value is missing or empty. -/
theorem jsOr_eq_getD (v : Option Str) (dflt : Str) :
    jsOr v dflt = if v.getD [] = [] then dflt else v.getD [] := by
  cases v with
  | none => simp [jsOr]
  | some s => by_cases h : s = [] <;> simp [jsOr, h]

/-- C6 amended: for every non-local input IP the resolver is total and never
throws (it is a function into location triples); on timeout, transport error,
unparseable (`null`) body, or non-`success` provider status it returns the
`Unknown` triple, and on provider success it returns the provider's three
fields with `Unknown` substituted for any individually missing or empty
field. -/
theorem claim_C6_amended_fallbacks :
    ∀ (ip : Str) (net : FetchOutcome), isLocalIP ip = false →
      ((net = .transportError ∨ net = .timeoutAbort ∨ net = .ok none →
          getLocationFromIP ip net = unknownTriple) ∧
       (∀ d : GeoData, net = .ok (some d) → d.status ≠ some (str "success") →
          getLocationFromIP ip net = unknownTriple) ∧
       (∀ d : GeoData, net = .ok (some d) → d.status = some (str "success") →
          getLocationFromIP ip net =
            ⟨if d.country.getD [] = [] then str "Unknown" else d.country.getD [],
             if d.city.getD [] = [] then str "Unknown" else d.city.getD [],
             if d.regionName.getD [] = [] then str "Unknown"
               else d.regionName.getD []⟩)) := by
  intro ip net hip
  refine ⟨?_, ?_, ?_⟩
  · rintro (rfl | rfl | rfl) <;> simp [getLocationFromIP, hip]
  · rintro d rfl hst
    have : (d.status == some (str "success")) = false := by
      rw [beq_eq_false_iff_ne]
      exact hst
    simp [getLocationFromIP, hip, this]
  · rintro d rfl hst
    have hb : (d.status == some (str "success")) = true := by
      rw [beq_iff_eq]
      exact hst
    simp [getLocationFromIP, hip, hb, jsOr_eq_getD]

/-- Witness for the amended C6 at a concrete success response with an empty
`country` field and a missing `regionName` field. -/
theorem claim_C6_witness :
    getLocationFromIP (str "8.8.8.8")
        (FetchOutcome.ok (some ⟨some (str "success"), some [],
          some (str "TestTown"), none⟩)) =
      ⟨str "Unknown", str "TestTown", str "Unknown"⟩ :=
  (((claim_C6_amended_fallbacks (str "8.8.8.8")
      (FetchOutcome.ok (some ⟨some (str "success"), some [],
        some (str "TestTown"), none⟩)) (by decide)).2.2
    ⟨some (str "success"), some [], some (str "TestTown"), none⟩
    rfl (by decide)).trans (by decide))

/-- C4: a resolved link whose expiry instant is set and strictly in the past
yields 410 with the static expired page, no datastore write and no background
task, regardless of the referrer, the partner configuration or any other
request data. -/
theorem claim_C4_expired_410 :
    ∀ (code : Str) (row : UrlRow) (t : Int) (now : Int) (req : Request) (b : Bool),
      row.expiresAt = some t → t < now →
      redirectHandler code (some row) now req b =
        ⟨410, Response.expiredPage, [], none⟩ := by
  intro code row t now req b he hlt
  have hx : isExpired row.expiresAt now = true := by
    rw [he]
    simpa [isExpired] using hlt
  simp [redirectHandler, hx]

/-- Witness for C4: a concrete expired row (expiry 5, current instant 10)
with a partner configured and no referrer. -/
theorem claim_C4_witness :
    redirectHandler (str "abc")
        (some ⟨str "http://target.example", some (str "example.com"), some 5⟩)
        10 emptyRequest true =
      ⟨410, Response.expiredPage, [], none⟩ :=
  claim_C4_expired_410 (str "abc")
    ⟨str "http://target.example", some (str "example.com"), some 5⟩
    5 10 emptyRequest true rfl (by decide)

/-- The head of `splitOnP` is the longest prefix on which the separator
predicate is false. -/
theorem headD_splitOnP (p : Char → Bool) (l : Str) :
    (l.splitOnP p).headD [] = l.takeWhile (fun c => !p c) := by
  induction l with
  | nil => simp [List.splitOnP_nil]
  | cons c t ih =>
    rw [List.splitOnP_cons]
    by_cases h : p c
    · simp [h, List.takeWhile_cons]
    · rw [if_neg h]
      rcases hs : t.splitOnP p with _ | ⟨a, r⟩
      · exact absurd hs (List.splitOnP_ne_nil _ t)
      · rw [hs] at ih
        simp only [List.headD_cons] at ih
        simp [List.takeWhile_cons, h, ← ih, hs]

/-- Mapping trim over the comma-split pieces and taking the first piece is
trimming the segment before the first comma. -/
theorem headD_map_splitOn (m : Str) :
    (((m.splitOn ',').map jsTrim).headD []) =
      jsTrim (m.takeWhile (fun c => !(c == ','))) := by
  have h := headD_splitOnP (fun c => c == ',') m
  rcases hs : m.splitOnP (fun c => c == ',') with _ | ⟨a, r⟩
  · exact absurd hs (List.splitOnP_ne_nil _ m)
  · rw [hs] at h
    simp only [List.headD_cons] at h
    rw [show m.splitOn ',' = m.splitOnP (fun c => c == ',') from rfl, hs]
    simp [h]

/-- C8: the client IP is derived in strict priority order — first entry of a
non-empty forwarded-for header (comma-split, trimmed), then the real-ip
header, then the CDN connecting-ip header, then the socket-derived addresses
(`req.ip`, then the raw connection address), and the literal `Unknown` when
none of these resolve. -/
theorem claim_C8_ip_priority :
    ∀ req : Request,
      (truthy req.xForwardedFor = true →
        getRealIP req =
          jsTrim ((req.xForwardedFor.getD []).takeWhile (fun c => !(c == ',')))) ∧
      (truthy req.xForwardedFor = false → truthy req.xRealIP = true →
        getRealIP req = req.xRealIP.getD []) ∧
      (truthy req.xForwardedFor = false → truthy req.xRealIP = false →
        truthy req.cfConnectingIP = true →
        getRealIP req = req.cfConnectingIP.getD []) ∧
      (truthy req.xForwardedFor = false → truthy req.xRealIP = false →
        truthy req.cfConnectingIP = false → truthy req.reqIp = true →
        getRealIP req = req.reqIp.getD []) ∧
      (truthy req.xForwardedFor = false → truthy req.xRealIP = false →
        truthy req.cfConnectingIP = false → truthy req.reqIp = false →
        truthy req.remoteAddress = true →
        getRealIP req = req.remoteAddress.getD []) ∧
      (truthy req.xForwardedFor = false → truthy req.xRealIP = false →
        truthy req.cfConnectingIP = false → truthy req.reqIp = false →
        truthy req.remoteAddress = false →
        getRealIP req = str "Unknown") := by
  intro req
  refine ⟨?_, ?_, ?_, ?_, ?_, ?_⟩
  · intro h1
    rw [getRealIP, if_pos h1]
    exact headD_map_splitOn _
  · intro h1 h2
    simp [getRealIP, h1, h2]
  · intro h1 h2 h3
    simp [getRealIP, h1, h2, h3]
  · intro h1 h2 h3 h4
    simp [getRealIP, h1, h2, h3, h4]
  · intro h1 h2 h3 h4 h5
    simp [getRealIP, h1, h2, h3, h4, h5]
  · intro h1 h2 h3 h4 h5
    simp [getRealIP, h1, h2, h3, h4, h5]

/-- Witness for C8: a forwarded-for header with two entries and surrounding
whitespace resolves to its first trimmed entry. -/
theorem claim_C8_witness :
    getRealIP ⟨some (str " 1.2.3.4 , 5.6.7.8"), none, none, none, none, none,
        none, none⟩ = str "1.2.3.4" :=
  ((claim_C8_ip_priority ⟨some (str " 1.2.3.4 , 5.6.7.8"), none, none, none,
      none, none, none, none⟩).1 (by decide)).trans (by decide)

/-- C2: a resolved, non-expired request on a link with a configured partner,
with both referrer headers absent (so the referrer defaults to the literal
`Direct`), whose normalized partner domain is not a substring of `direct`,
yields 403 with the constant warning page (independent of the target URL),
attempts exactly one bypass-log insert carrying referrer `Direct`, creates no
click event and no counter increment (no background task), and is unaffected
by whether that insert succeeds. -/
theorem claim_C2_direct_bypass :
    ∀ (code : Str) (row : UrlRow) (now : Int) (req : Request) (b b2 : Bool),
      truthy row.partnerDomain = true →
      req.referer = none → req.referrerHdr = none →
      isExpired row.expiresAt now = false →
      ¬ ReferrerPolicy.normalize (row.partnerDomain.getD []) <:+: str "direct" →
      ((redirectHandler code (some row) now req b).status = 403 ∧
       (redirectHandler code (some row) now req b).response = Response.bypassPage ∧
       (redirectHandler code (some row) now req b).effects =
         [Effect.insertBypass code (str "Direct") (getRealIP req)
           (jsOr req.userAgent (str "Unknown"))] ∧
       (redirectHandler code (some row) now req b).background = none ∧
       redirectHandler code (some row) now req b =
         redirectHandler code (some row) now req b2 ∧
       (∀ u2 : Str,
         (redirectHandler code (some { row with url := u2 }) now req b).response =
           Response.bypassPage)) := by
  intro code row now req b b2 hpd hr1 hr2 hexp hni
  have hAllow :
      ReferrerPolicy.isAllowed (row.partnerDomain.getD []) (str "Direct") = false := by
    rw [isAllowed_eq_contains, normalize_Direct]
    cases hj : jsIncludes (str "direct")
        (ReferrerPolicy.normalize (row.partnerDomain.getD [])) with
    | false => rfl
    | true => exact absurd ((jsIncludes_iff _ _).mp hj) hni
  refine ⟨?_, ?_, ?_, ?_, rfl, ?_⟩ <;>
    simp [redirectHandler, hexp, hpd, hr1, hr2, jsOr, hAllow]

/-- Witness for C2 at a concrete request with no headers against a link with
partner domain `example.com`. -/
theorem claim_C2_witness :
    (redirectHandler (str "abc")
        (some ⟨str "http://target.example", some (str "example.com"), none⟩)
        0 emptyRequest true).status = 403 :=
  (claim_C2_direct_bypass (str "abc")
    ⟨str "http://target.example", some (str "example.com"), none⟩
    0 emptyRequest true false (by decide) rfl rfl (by decide) (by decide)).1

/-- C5: for every request whose synchronous outcome schedules a background
task, once that task settles its effects contain exactly one click insert;
the counter increment is issued exactly once when the insert succeeds and is
skipped when it fails; and when the geolocation fetch times out or errors
(for a non-local IP) the click insert carries the `Unknown` triple. -/
theorem claim_C5_click_recording :
    ∀ (code : Str) (lookup : Option UrlRow) (now : Int) (req : Request)
      (b : Bool) (t : BgTask) (net : FetchOutcome) (clickInsertOk : Bool),
      (redirectHandler code lookup now req b).background = some t →
      (((backgroundEffects t net clickInsertOk).countP Effect.isClickInsert = 1) ∧
       (clickInsertOk = true →
          (backgroundEffects t net clickInsertOk).countP Effect.isIncrement = 1) ∧
       (clickInsertOk = false →
          (backgroundEffects t net clickInsertOk).countP Effect.isIncrement = 0) ∧
       ((net = .transportError ∨ net = .timeoutAbort) →
          isLocalIP t.ipAddress = false →
          Effect.insertClick t.code t.ipAddress unknownTriple t.userAgent
              t.device t.browser t.os t.referrer ∈
            backgroundEffects t net clickInsertOk)) := by
  intro code lookup now req b t net clickInsertOk _hbg
  refine ⟨?_, ?_, ?_, ?_⟩
  · cases clickInsertOk <;>
      simp [backgroundEffects, List.countP_cons, Effect.isClickInsert,
        Effect.isIncrement]
  · intro h
    subst h
    simp [backgroundEffects, List.countP_cons, Effect.isClickInsert,
      Effect.isIncrement]
  · intro h
    subst h
    simp [backgroundEffects, List.countP_cons, Effect.isClickInsert,
      Effect.isIncrement]
  · rintro (rfl | rfl) hip <;>
      simp [backgroundEffects, getLocationFromIP, hip]

/-- Witness for C5 at a concrete allowed request (no partner, no headers):
the scheduled task, on a geolocation transport error with a successful
insert, attempts exactly one click insert. -/
theorem claim_C5_witness :
    (backgroundEffects
        ⟨str "abc", str "Unknown", str "Unknown", str "Direct", str "Desktop",
          str "Unknown", str "Unknown"⟩
        FetchOutcome.transportError true).countP Effect.isClickInsert = 1 :=
  (claim_C5_click_recording (str "abc")
    (some ⟨str "http://target.example", none, none⟩) 0 emptyRequest true
    ⟨str "abc", str "Unknown", str "Unknown", str "Direct", str "Desktop",
      str "Unknown", str "Unknown"⟩
    FetchOutcome.transportError true (by decide)).1
